import Mathlib

/-!
Verification model of the pdfparser job pipeline.

The definitions below are a shallow embedding of the repository sources:
`job_queue.py` (in-memory FIFO job queue), `doctly_client.py` (remote
conversion client with a poll loop), `worker.py` (per-job pipeline,
webhook notifier, temp-file cleanup) and `s3_utils.py` (public URL
derivation).  Wall-clock timestamps are modelled as natural numbers, and
external I/O (HTTP requests, object-store transfers) is modelled by
explicit environments giving the outcome of each call in sequence.
-/

namespace PdfPipeline

/-- Job record, embedding the dictionary built in `JobQueue.add_job`:
fields id, data, created_at, status, plus the started_at field that
`JobQueue.get_next_job` adds when the job is handed to the worker. -/
structure Job (α : Type) where
  id : Nat
  data : α
  created_at : Nat
  status : String
  started_at : Option Nat
deriving DecidableEq, Repr

/-- State of the in-memory queue from `job_queue.py`: the deque of pending
jobs and the monotonically increasing job counter. -/
structure JobQueue (α : Type) where
  queue : List (Job α)
  job_counter : Nat
deriving DecidableEq, Repr

/-- Fresh queue, as built by `JobQueue.__init__`. -/
def JobQueue.empty (α : Type) : JobQueue α := ⟨[], 0⟩

/-- The job record `JobQueue.add_job` builds when the stored counter is `c`:
its id is the freshly incremented counter `c + 1`, its status "queued". -/
def fresh_job (c : Nat) (now : Nat) (job_data : α) : Job α :=
  { id := c + 1, data := job_data, created_at := now
    status := "queued", started_at := none }

/-- Embedding of `JobQueue.add_job`: increments the counter, appends a new
job record with status "queued", and returns the 1-based queue position.
The `now` argument stands for `time.time()`. -/
def add_job (now : Nat) (job_data : α) (q : JobQueue α) : JobQueue α × Nat :=
  let queue := q.queue ++ [fresh_job q.job_counter now job_data]
  (⟨queue, q.job_counter + 1⟩, queue.length)

/-- Embedding of `JobQueue.get_next_job`: pops the oldest job, marking it
"processing" and stamping started_at; returns `none` on an empty queue. -/
def get_next_job (now : Nat) (q : JobQueue α) : JobQueue α × Option (Job α) :=
  match q.queue with
  | [] => (q, none)
  | job :: rest =>
      (⟨rest, q.job_counter⟩,
       some { job with status := "processing", started_at := some now })

/-- Enqueue a list of payloads in order (repeated `add_job` calls, all at
model time 0). -/
def enqueue_all (ps : List α) (q : JobQueue α) : JobQueue α :=
  ps.foldl (fun s p => (add_job 0 p s).1) q

/-- Perform `n` successive `get_next_job` calls, collecting each result. -/
def dequeue_all : Nat → JobQueue α → JobQueue α × List (Option (Job α))
  | 0, q => (q, [])
  | n + 1, q =>
      let r := get_next_job 0 q
      let rest := dequeue_all n r.1
      (rest.1, r.2 :: rest.2)

/-- The job records that `add_job` builds for payloads `ps` starting from
counter value `c`. -/
def queued_jobs (c : Nat) : List α → List (Job α)
  | [] => []
  | p :: ps => fresh_job c 0 p :: queued_jobs (c + 1) ps

/-- The mutation `get_next_job` applies to the job it hands out. -/
def mark_processing (j : Job α) : Job α :=
  { j with status := "processing", started_at := some 0 }

/-- One external operation on the queue: an enqueue with a payload, or a
dequeue attempt. -/
inductive QueueOp (α : Type) where
  | enq (p : α)
  | deq

/-- Number of enqueue operations in a list of queue operations. -/
def count_enq : List (QueueOp α) → Nat
  | [] => 0
  | .enq _ :: ops => count_enq ops + 1
  | .deq :: ops => count_enq ops

/-- Run a list of queue operations from a given state, recording for each
enqueue the id of the job record actually appended to the queue. -/
def run_ops : List (QueueOp α) → JobQueue α → JobQueue α × List Nat
  | [], q => (q, [])
  | .enq p :: ops, q =>
      let q2 := (add_job 0 p q).1
      let r := run_ops ops q2
      (r.1, (match q2.queue.getLast? with | some j => j.id | none => 0) :: r.2)
  | .deq :: ops, q => run_ops ops (get_next_job 0 q).1

/-- ASCII lowercasing, embedding the Python `str.lower()` used by the
poll loop retry filter. -/
def str_lower (s : String) : String := ⟨s.data.map Char.toLower⟩

/-- ASCII uppercasing, embedding the Python `str.upper()` applied to the
reported document status. -/
def str_upper (s : String) : String := ⟨s.data.map Char.toUpper⟩

/-- Whether a string strips to empty, embedding the truthiness test
`not text.strip()` on downloaded content. -/
def is_blank (s : String) : Bool := s.data.all (fun c => c.isWhitespace)

/-- Remote document information as returned by the Doctly status endpoint:
the status string and the optional output_file_url (absent modelled as
`none`, mirroring `dict.get` returning None). -/
structure DocumentInfo where
  status : String
  output_file_url : Option String
deriving DecidableEq, Repr

/-- Outcome of one HTTP GET against the status endpoint, before the
wrapping done in `DoctlyClient.get_document_status`: a JSON document, a
`requests.exceptions.RequestException`, or some other raised exception. -/
inductive HttpResult where
  | ok (info : DocumentInfo)
  | request_error (msg : String)
  | other_error (msg : String)
deriving DecidableEq, Repr

/-- Outcome of one HTTP GET against a result download URL (the signed
object-store URL): the body text, or a request exception. -/
inductive GetResult where
  | ok (text : String)
  | request_error (msg : String)
deriving DecidableEq, Repr

/-- Environment for the Doctly client: the outcome of the i-th status
query and of the i-th result-download GET. -/
structure DoctlyEnv where
  status_http : Nat → HttpResult
  get_http : Nat → GetResult

/-- Counters of how many status queries and download GETs have happened. -/
structure NetState where
  status_calls : Nat
  get_calls : Nat
deriving DecidableEq, Repr

/-- Embedding of `DoctlyClient.get_document_status`: performs the next
status GET; a RequestException is re-raised as an Exception whose message
is prefixed with "Doctly status check failed: ", any other exception is
re-raised unchanged. -/
def get_document_status (env : DoctlyEnv) (ns : NetState) :
    Except String DocumentInfo × NetState :=
  let ns2 : NetState := { ns with status_calls := ns.status_calls + 1 }
  match env.status_http ns.status_calls with
  | .ok info => (.ok info, ns2)
  | .request_error m => (.error ("Doctly status check failed: " ++ m), ns2)
  | .other_error m => (.error m, ns2)

/-- Python truthiness of the output_file_url value: `not output_file_url`
is true when the field is absent (None) or the empty string. -/
def url_falsy : Option String → Bool
  | none => true
  | some u => u == ""

/-- Embedding of `DoctlyClient.download_result`: queries the document
status for the output_file_url, then GETs that URL; a falsy URL (absent
or empty) raises, with the message depending on the reported status;
other failure modes mirror the exception messages raised in the source. -/
def download_result (env : DoctlyEnv) (ns : NetState) :
    Except String String × NetState :=
  match get_document_status env ns with
  | (.error m, ns2) => (.error m, ns2)
  | (.ok info, ns2) =>
      if url_falsy info.output_file_url then
        if info.status = "COMPLETED" then
          (.error "No output_file_url available in completed document", ns2)
        else
          (.error ("Document not ready for download. Status: " ++ info.status), ns2)
      else
        let ns3 : NetState := { ns2 with get_calls := ns2.get_calls + 1 }
        match env.get_http ns2.get_calls with
        | .request_error m => (.error ("Doctly download failed: " ++ m), ns3)
        | .ok text =>
            if is_blank text then
              (.error "Downloaded Markdown content is empty", ns3)
            else
              (.ok text, ns3)

/-- Embedding of `DoctlyClient.download_result_with_fallback`: tries
`download_result`; on failure re-queries the status and, only when the
output_file_url is truthy (present and nonempty), retries the GET with a
User-Agent header; if the fallback also fails (or yields empty content,
or the URL is falsy), the original error is re-raised. -/
def download_result_with_fallback (env : DoctlyEnv) (ns : NetState) :
    Except String String × NetState :=
  match download_result env ns with
  | (.ok text, ns2) => (.ok text, ns2)
  | (.error e, ns2) =>
      match get_document_status env ns2 with
      | (.error _, ns3) => (.error e, ns3)
      | (.ok info, ns3) =>
          if url_falsy info.output_file_url then (.error e, ns3)
          else
            let ns4 : NetState := { ns3 with get_calls := ns3.get_calls + 1 }
            match env.get_http ns3.get_calls with
            | .request_error _ => (.error e, ns4)
            | .ok text => if is_blank text then (.error e, ns4) else (.ok text, ns4)

/-- Substring test on character lists: some tail of `hay` starts with
`needle`. -/
def contains_sub (hay needle : List Char) : Bool :=
  hay.tails.any (fun t => needle.isPrefixOf t)

/-- Embedding of the Python test `w in msg.lower()` for a lowercase w. -/
def has_word (msg w : String) : Bool :=
  contains_sub (str_lower msg).data w.data

/-- The poll loop retry filter: the Python code re-raises an exception iff
its lowercased message contains "failed" or "expired". -/
def is_terminal_word_error (msg : String) : Bool :=
  has_word msg "failed" || has_word msg "expired"

/-- State carried through the poll loop: network counters, elapsed model
time (advanced only by sleeps), and the number of sleeps performed. -/
structure PollState where
  net : NetState
  elapsed : Nat
  sleeps : Nat
deriving DecidableEq, Repr

/-- Result of the poll loop: the downloaded content, a raised exception
message, or exhaustion of the iteration fuel (never reached with
adequate fuel). -/
inductive PollResult where
  | ok (content : String) (st : PollState)
  | err (msg : String) (st : PollState)
  | out_of_fuel
deriving DecidableEq, Repr

/-- One `time.sleep(poll_interval)` inside the poll loop. -/
def sleep_step (poll_interval : Nat) (st : PollState) (ns : NetState) : PollState :=
  { net := ns, elapsed := st.elapsed + poll_interval, sleeps := st.sleeps + 1 }

/-- The timeout exception message raised when the poll loop gives up. -/
def timeout_msg (doc_id : String) (elapsed : Nat) : String :=
  "Doctly document " ++ doc_id ++ " timed out after " ++ toString elapsed ++ " seconds"

/-- Embedding of the `while` loop of `DoctlyClient.poll_until_complete`,
by iteration fuel.  Each iteration checks elapsed < max_wait_time, then
queries the status; COMPLETED fetches the result, FAILED and EXPIRED
raise, PENDING and PROCESSING (and unknown statuses) sleep one poll
interval.  Every exception raised inside the body passes through the
retry filter: messages containing "failed" or "expired" are re-raised,
anything else is logged and followed by a sleep. -/
def poll_go (env : DoctlyEnv) (doc_id : String) (max_wait_time poll_interval : Nat) :
    Nat → PollState → PollResult
  | 0, _ => .out_of_fuel
  | fuel + 1, st =>
      if st.elapsed < max_wait_time then
        match get_document_status env st.net with
        | (.error m, ns) =>
            if is_terminal_word_error m then .err m { st with net := ns }
            else poll_go env doc_id max_wait_time poll_interval fuel (sleep_step poll_interval st ns)
        | (.ok info, ns) =>
            let status := str_upper info.status
            if status = "COMPLETED" then
              match download_result_with_fallback env ns with
              | (.ok text, ns2) => .ok text { st with net := ns2 }
              | (.error m, ns2) =>
                  if is_terminal_word_error m then .err m { st with net := ns2 }
                  else poll_go env doc_id max_wait_time poll_interval fuel
                    (sleep_step poll_interval st ns2)
            else if status = "FAILED" ∨ status = "EXPIRED" then
              let m := "Doctly document " ++ ("Document processing " ++ str_lower status)
              if is_terminal_word_error m then .err m { st with net := ns }
              else poll_go env doc_id max_wait_time poll_interval fuel
                (sleep_step poll_interval st ns)
            else
              poll_go env doc_id max_wait_time poll_interval fuel (sleep_step poll_interval st ns)
      else
        .err (timeout_msg doc_id st.elapsed) st

/-- Embedding of `DoctlyClient.poll_until_complete` starting from fresh
counters and zero elapsed time. -/
def poll_until_complete (env : DoctlyEnv) (doc_id : String)
    (max_wait_time poll_interval fuel : Nat) : PollResult :=
  poll_go env doc_id max_wait_time poll_interval fuel
    { net := ⟨0, 0⟩, elapsed := 0, sleeps := 0 }

/-- Terminal status vocabulary of the poll loop, uppercase form. -/
def terminal_status (s : String) : Bool :=
  s == "COMPLETED" || s == "FAILED" || s == "EXPIRED"

/-- An environment whose status queries all succeed and never report a
terminal status (completed, failed or expired). -/
def all_nonterminal (env : DoctlyEnv) : Prop :=
  ∀ i, ∃ info, env.status_http i = .ok info ∧
    terminal_status (str_upper info.status) = false

/-- Environment for claim C2: every status query raises a network
RequestException with message "Connection refused". -/
def c2_env : DoctlyEnv :=
  { status_http := fun _ => .request_error "Connection refused"
    get_http := fun _ => .ok "" }

/-- Environment for claim C3, success scenario: the first two status
queries report pending, every later one reports completed with a result
URL, and every result GET returns the fetched content. -/
def c3_env (url content : String) : DoctlyEnv :=
  { status_http := fun i =>
      if i < 2 then .ok ⟨"PENDING", none⟩ else .ok ⟨"COMPLETED", some url⟩
    get_http := fun _ => .ok content }

/-- Environment for claim C3, failure scenario: the first status query
already reports failed. -/
def c3_fail_env : DoctlyEnv :=
  { status_http := fun _ => .ok ⟨"FAILED", none⟩
    get_http := fun _ => .ok "unused" }

/-- Environment for the claim C4 witness: the status is pending forever. -/
def c4_env : DoctlyEnv :=
  { status_http := fun _ => .ok ⟨"PENDING", none⟩
    get_http := fun _ => .ok "unused" }

/-- Local filesystem model for the worker: the files present and a
counter feeding fresh temporary-file names. -/
structure FsState where
  files : List String
  tmp_counter : Nat
deriving DecidableEq, Repr

/-- Empty filesystem at the start of a run. -/
def fs_init : FsState := ⟨[], 0⟩

/-- Embedding of `tempfile.NamedTemporaryFile(suffix=..., delete=False)`:
creates a fresh file and returns its name. -/
def named_temporary_file (suffix : String) (fs : FsState) : String × FsState :=
  let name := "tmp" ++ toString fs.tmp_counter ++ suffix
  (name, ⟨fs.files ++ [name], fs.tmp_counter + 1⟩)

/-- Embedding of `os.unlink`: removes the named file. -/
def unlink (path : String) (fs : FsState) : FsState :=
  { fs with files := fs.files.filter (fun f => f ≠ path) }

/-- Embedding of `os.path.exists`. -/
def path_exists (path : String) (fs : FsState) : Bool :=
  fs.files.contains path

/-- Embedding of `Worker._cleanup_temp_files`: for each recorded temp path,
if it exists it is unlinked (a deletion failure would only be logged; the
local unlink of an existing file is modelled as succeeding). -/
def cleanup_temp_files (temp_files : List String) (fs : FsState) : FsState :=
  temp_files.foldl (fun acc p => if path_exists p acc then unlink p acc else acc) fs

/-- Embedding of `os.path.basename`: the part after the last slash. -/
def basename (p : String) : String :=
  ⟨(p.data.reverse.takeWhile (fun c => c ≠ '/')).reverse⟩

/-- Embedding of `os.path.splitext(...)[0]` on a basename: drops the last
dot-suffix provided at least one non-dot character precedes the dot. -/
def splitext_root (b : String) : String :=
  let dropped := b.data.reverse.dropWhile (fun c => c ≠ '.')
  match dropped with
  | [] => b
  | _ :: stem_rev => if stem_rev.any (fun c => c ≠ '.') then ⟨stem_rev.reverse⟩ else b

/-- Embedding of the public URL built by `S3Utils.upload_file` from the
region, bucket and key. -/
def s3_public_url (region bucket key : String) : String :=
  if region = "us-east-1" then
    "https://s3.amazonaws.com/" ++ bucket ++ "/" ++ key
  else
    "https://s3-" ++ region ++ ".amazonaws.com/" ++ bucket ++ "/" ++ key

/-- Outcome of the single `requests.post` made by `Worker._send_webhook`:
an HTTP response with a status code, or a raised network error (timeout
or connection failure). -/
inductive PostOutcome where
  | response (code : Nat)
  | network_error (msg : String)
deriving DecidableEq, Repr

/-- Observable behaviour of one `_send_webhook` call: how many POST
attempts were made, the timeout passed to the request, the exception (if
any) propagated to the caller, and the failure message logged (if any). -/
structure WebhookResult where
  attempts : Nat
  timeout_seconds : Nat
  raised : Option String
  logged_error : Option String
deriving DecidableEq, Repr

/-- Embedding of `response.raise_for_status()`: raises on status codes
of 400 and above. -/
def raise_for_status (code : Nat) : Except String Unit :=
  if 400 ≤ code then .error ("HTTP error " ++ toString code) else .ok ()

/-- Embedding of `Worker._send_webhook`: one POST with timeout=30 inside a
try block whose except clause catches every exception and only logs it,
so the call never raises to its caller. -/
def send_webhook (post : PostOutcome) : WebhookResult :=
  let attempt : Except String Unit :=
    match post with
    | .response code => raise_for_status code
    | .network_error m => .error m
  match attempt with
  | .ok _ => { attempts := 1, timeout_seconds := 30, raised := none, logged_error := none }
  | .error m => { attempts := 1, timeout_seconds := 30, raised := none, logged_error := some m }

/-- The success webhook payload dict built in `Worker._process_job`,
as an ordered key/value list; `none` models a JSON null value. -/
def success_payload (csv_url original_filename document_id : String) :
    List (String × Option String) :=
  [("status", some "success"), ("csv_url", some csv_url),
   ("original_filename", some original_filename), ("document_id", some document_id)]

/-- The error webhook payload dict built in `Worker._process_job`; the
document_id field is None (null) when no remote id was obtained. -/
def error_payload (msg original_filename : String) (document_id : Option String) :
    List (String × Option String) :=
  [("status", some "error"), ("message", some msg),
   ("original_filename", some original_filename), ("document_id", document_id)]

/-- The webhook URL used on the error path: the document id is appended as
a query parameter only when it is truthy (present and nonempty). -/
def error_webhook_url (webhook_url : String) (document_id : Option String) : String :=
  match document_id with
  | some d => if d = "" then webhook_url else webhook_url ++ "?document_id=" ++ d
  | none => webhook_url

/-- Environment for one worker job: outcomes of the S3 download, the
Doctly round-trip (returning markdown content and document id), the
markdown-to-csv transformation, the S3 upload, the configured AWS region,
and the response to each webhook POST. -/
structure WorkerEnv where
  download_outcome : Except String Unit
  doctly_outcome : Except String (String × String)
  parse_csv : String → Except String String
  upload_outcome : Except String Unit
  region : String
  post : String → List (String × Option String) → PostOutcome

/-- Embedding of `S3Utils.upload_file`: on success returns the public URL
derived from region, bucket and key. -/
def upload_file (env : WorkerEnv) (bucket key : String) : Except String String :=
  match env.upload_outcome with
  | .error m => .error m
  | .ok _ => .ok (s3_public_url env.region bucket key)

/-- Observable outcome of `Worker._process_job`: final filesystem, the
temp files created during the job, the upload calls made
(local path, bucket, key), the webhooks sent (url, payload), and the
result of each webhook delivery.  `_process_job` itself never raises
past its except clause, so there is no raised component. -/
structure JobResult where
  fs : FsState
  temp_files : List String
  uploads : List (String × String × String)
  webhooks : List (String × List (String × Option String))
  webhook_results : List WebhookResult
deriving Repr

/-- The except-block of `_process_job`: send the error webhook, with the
document id appended to the URL only when one was obtained.  The fs field
holds the filesystem before the finally-block runs. -/
def finish_error (env : WorkerEnv) (webhook_url e s3_key : String)
    (document_id : Option String) (temp_files : List String) (fs : FsState)
    (uploads : List (String × String × String)) : JobResult :=
  let url := error_webhook_url webhook_url document_id
  let payload := error_payload e (basename s3_key) document_id
  { fs := fs
    temp_files := temp_files
    uploads := uploads
    webhooks := [(url, payload)]
    webhook_results := [send_webhook (env.post url payload)] }

/-- The try/except part of `Worker._process_job`: download the PDF to a
temp file, run the Doctly round-trip, parse the markdown to CSV, write
the CSV to a second temp file and upload it under the derived key, then
send the success webhook; any step failure jumps to the error webhook.
The fs field of the result is the filesystem before the finally-block. -/
def process_job_try (env : WorkerEnv) (s3_bucket s3_key webhook_url : String)
    (fs0 : FsState) : JobResult :=
  let r1 := named_temporary_file ".pdf" fs0
  let temp_pdf := r1.1
  let fs1 := r1.2
  match env.download_outcome with
  | .error e => finish_error env webhook_url e s3_key none [temp_pdf] fs1 []
  | .ok _ =>
  match env.doctly_outcome with
  | .error e => finish_error env webhook_url e s3_key none [temp_pdf] fs1 []
  | .ok (markdown_content, document_id) =>
  match env.parse_csv markdown_content with
  | .error e => finish_error env webhook_url e s3_key (some document_id) [temp_pdf] fs1 []
  | .ok _csv_content =>
      let original_filename := splitext_root (basename s3_key)
      let csv_key := "processed/" ++ original_filename ++ ".csv"
      let r2 := named_temporary_file ".csv" fs1
      let temp_csv := r2.1
      let fs2 := r2.2
      match upload_file env s3_bucket csv_key with
      | .error e =>
          finish_error env webhook_url e s3_key (some document_id)
            [temp_pdf, temp_csv] fs2 [(temp_csv, s3_bucket, csv_key)]
      | .ok csv_url =>
          let url := webhook_url ++ "?document_id=" ++ document_id
          let payload := success_payload csv_url (basename s3_key) document_id
          { fs := fs2
            temp_files := [temp_pdf, temp_csv]
            uploads := [(temp_csv, s3_bucket, csv_key)]
            webhooks := [(url, payload)]
            webhook_results := [send_webhook (env.post url payload)] }

/-- Embedding of `Worker._process_job`: the try/except pipeline above,
followed on every exit path by the finally-block, which cleans up every
temp file recorded during the job. -/
def process_job (env : WorkerEnv) (s3_bucket s3_key webhook_url : String)
    (fs0 : FsState) : JobResult :=
  let r := process_job_try env s3_bucket s3_key webhook_url fs0
  { r with fs := cleanup_temp_files r.temp_files r.fs }

/-- Environment for the claim C5 witness: the S3 download raises. -/
def c5_env : WorkerEnv :=
  { download_outcome := .error "File not found in S3: s3://b/doc.pdf"
    doctly_outcome := .ok ("", "")
    parse_csv := fun _ => .ok ""
    upload_outcome := .ok ()
    region := "us-east-1"
    post := fun _ _ => .response 200 }

/-- Environment for claim C6: every step succeeds, the gateway returns
document id "d1" with tabular markdown content. -/
def c6_env : WorkerEnv :=
  { download_outcome := .ok ()
    doctly_outcome := .ok ("| a | b | c | d |", "d1")
    parse_csv := fun _ => .ok "a,b,c,d"
    upload_outcome := .ok ()
    region := "us-east-1"
    post := fun _ _ => .response 200 }

theorem enqueue_all_spec (ps : List α) (q : JobQueue α) :
    enqueue_all ps q =
      ⟨q.queue ++ queued_jobs q.job_counter ps, q.job_counter + ps.length⟩ := by
  induction ps generalizing q with
  | nil => simp [enqueue_all, queued_jobs]
  | cons p ps ih =>
      have hstep : enqueue_all (p :: ps) q =
          enqueue_all ps ⟨q.queue ++ [fresh_job q.job_counter 0 p], q.job_counter + 1⟩ := rfl
      rw [hstep, ih]
      simp only [JobQueue.mk.injEq, queued_jobs]
      exact ⟨by simp [List.append_assoc], by simp only [List.length_cons]; omega⟩

theorem dequeue_all_extra (l : List (Job α)) (c : Nat) :
    dequeue_all (l.length + 1) ⟨l, c⟩ =
      (⟨[], c⟩, l.map (fun j => some (mark_processing j)) ++ [none]) := by
  induction l with
  | nil => rfl
  | cons j l ih =>
      show (let r := get_next_job 0 ⟨j :: l, c⟩
            let rest := dequeue_all (l.length + 1) r.1
            (rest.1, r.2 :: rest.2)) = _
      simp only [get_next_job]
      rw [ih]
      rfl

theorem queued_jobs_length (ps : List α) : ∀ c : Nat, (queued_jobs c ps).length = ps.length := by
  induction ps with
  | nil => intro c; rfl
  | cons p ps ih => intro c; simp [queued_jobs, ih]

theorem get_next_job_counter (now : Nat) (q : JobQueue α) :
    (get_next_job now q).1.job_counter = q.job_counter := by
  cases h : q.queue with
  | nil => simp [get_next_job, h]
  | cons j rest => simp [get_next_job, h]

theorem run_ops_spec (ops : List (QueueOp α)) (q : JobQueue α) :
    (run_ops ops q).2 = List.range' (q.job_counter + 1) (count_enq ops) ∧
    (run_ops ops q).1.job_counter = q.job_counter + count_enq ops := by
  induction ops generalizing q with
  | nil => simp [run_ops, count_enq]
  | cons op ops ih =>
      cases op with
      | enq p =>
          have hq2 : (add_job 0 p q).1 =
              ⟨q.queue ++ [fresh_job q.job_counter 0 p], q.job_counter + 1⟩ := rfl
          have hlast : (q.queue ++ [fresh_job q.job_counter 0 p]).getLast? =
              some (fresh_job q.job_counter 0 p) := List.getLast?_concat q.queue
          have ih2 := ih ⟨q.queue ++ [fresh_job q.job_counter 0 p], q.job_counter + 1⟩
          simp only [run_ops, hq2, hlast]
          constructor
          · rw [ih2.1]
            simp only [count_enq, fresh_job, List.range'_succ]
          · rw [ih2.2]
            simp only [count_enq]
            omega
      | deq =>
          have ih2 := ih (get_next_job 0 q).1
          simp only [run_ops, count_enq]
          rw [ih2.1, ih2.2, get_next_job_counter]
          exact ⟨rfl, rfl⟩

/-- Claim C1 (counterexample): after N = 1 enqueue, the claim says the Nth
(first) dequeue returns the empty signal; in fact the first dequeue
returns the enqueued job, not `none`. -/
theorem first_dequeue_not_empty_counterexample :
    (get_next_job 0 (enqueue_all ["p"] (JobQueue.empty String))).2 ≠ none := by
  decide

/-- Claim C1 (amended): for every sequence of N enqueues followed by
dequeues, the first N dequeues return exactly the enqueued jobs, in
enqueue order and marked "processing", and the (N+1)th dequeue returns
the empty signal `none`. -/
theorem fifo_dequeue_order (ps : List String) :
    (dequeue_all (ps.length + 1) (enqueue_all ps (JobQueue.empty String))).2 =
      (queued_jobs 0 ps).map (fun j => some (mark_processing j)) ++ [none] := by
  rw [enqueue_all_spec ps (JobQueue.empty String)]
  simp only [JobQueue.empty, List.nil_append, Nat.zero_add]
  rw [← queued_jobs_length ps 0, dequeue_all_extra]

/-- Claim C7: across every sequence of queue operations on a fresh queue,
the job ids assigned by the enqueues are exactly 1, 2, ..., k in enqueue
order — strictly increasing with no duplicates and no skipped values; in
particular every id ever assigned is distinct, so an id is never reused
after its job is dequeued. -/
theorem job_ids_strictly_increasing (ops : List (QueueOp String)) :
    (run_ops ops (JobQueue.empty String)).2 = List.range' 1 (count_enq ops) :=
  (run_ops_spec ops (JobQueue.empty String)).1

/-- Claim C10: a dequeue on an empty queue returns the empty signal `none`
and returns the queue state completely unchanged — same (empty) contents,
same job counter, no job record modified. -/
theorem dequeue_empty_unchanged (now : Nat) (q : JobQueue α) (h : q.queue = []) :
    get_next_job now q = (q, none) := by
  obtain ⟨queue, c⟩ := q
  change queue = [] at h
  subst h
  rfl

theorem dequeue_empty_unchanged_witness :
    get_next_job 0 (JobQueue.empty String) = (JobQueue.empty String, none) :=
  dequeue_empty_unchanged 0 (JobQueue.empty String) rfl

theorem terminal_status_false_ne (s : String) (h : terminal_status s = false) :
    s ≠ "COMPLETED" ∧ s ≠ "FAILED" ∧ s ≠ "EXPIRED" := by
  simp only [terminal_status, Bool.or_eq_false_iff, beq_eq_false_iff_ne, ne_eq] at h
  exact ⟨h.1.1, h.1.2, h.2⟩

theorem poll_go_timeout_step (env : DoctlyEnv) (d : String) (mw pi fuel : Nat)
    (st : PollState) (hge : ¬ st.elapsed < mw) :
    poll_go env d mw pi (fuel + 1) st = .err (timeout_msg d st.elapsed) st := by
  simp only [poll_go]
  rw [if_neg hge]

theorem poll_go_sleep_step (env : DoctlyEnv) (d : String) (mw pi fuel : Nat)
    (st : PollState) (info : DocumentInfo) (ns : NetState)
    (hlt : st.elapsed < mw)
    (hq : get_document_status env st.net = (.ok info, ns))
    (h1 : str_upper info.status ≠ "COMPLETED")
    (h2 : str_upper info.status ≠ "FAILED")
    (h3 : str_upper info.status ≠ "EXPIRED") :
    poll_go env d mw pi (fuel + 1) st = poll_go env d mw pi fuel (sleep_step pi st ns) := by
  simp only [poll_go]
  rw [if_pos hlt, hq]
  dsimp only
  rw [if_neg h1, if_neg (not_or.mpr ⟨h2, h3⟩)]

theorem poll_go_completed_step (env : DoctlyEnv) (d : String) (mw pi fuel : Nat)
    (st : PollState) (info : DocumentInfo) (ns : NetState) (text : String) (ns2 : NetState)
    (hlt : st.elapsed < mw)
    (hq : get_document_status env st.net = (.ok info, ns))
    (hs : str_upper info.status = "COMPLETED")
    (hd : download_result_with_fallback env ns = (.ok text, ns2)) :
    poll_go env d mw pi (fuel + 1) st = .ok text { st with net := ns2 } := by
  simp only [poll_go]
  rw [if_pos hlt, hq]
  dsimp only
  rw [hs, if_pos rfl, hd]

/-- Claim C2 (behaviour of the code at the failing input): a status query
that raises a network error is wrapped by get_document_status into the
message "Doctly status check failed: ...", which the retry filter
substring-matches on "failed" and re-raises, so the very first such
error aborts the poll loop with zero sleeps instead of being retried. -/
theorem poll_aborts_on_status_network_error :
    poll_until_complete c2_env "doc-1" 1800 10 5 =
      .err "Doctly status check failed: Connection refused" ⟨⟨1, 0⟩, 0, 0⟩ := by
  decide

/-- Claim C3: with statuses pending, pending, completed and a fetchable
result (nonempty output URL, non-blank content), the poll loop sleeps
exactly twice (elapsed = 2 poll intervals) and returns the fetched
content; with a first status of failed it raises immediately with zero
sleeps. -/
theorem poll_pending_pending_completed (url content : String)
    (h : is_blank content = false) (hurl : url ≠ "") :
    poll_until_complete (c3_env url content) "doc-1" 1800 10 5 =
      .ok content ⟨⟨4, 1⟩, 20, 2⟩ ∧
    poll_until_complete c3_fail_env "doc-1" 1800 10 5 =
      .err "Doctly document Document processing failed" ⟨⟨1, 0⟩, 0, 0⟩ := by
  constructor
  · have e1 : get_document_status (c3_env url content) ⟨0, 0⟩ =
        (.ok ⟨"PENDING", none⟩, ⟨1, 0⟩) := rfl
    have e2 : get_document_status (c3_env url content) ⟨1, 0⟩ =
        (.ok ⟨"PENDING", none⟩, ⟨2, 0⟩) := rfl
    have e3 : get_document_status (c3_env url content) ⟨2, 0⟩ =
        (.ok ⟨"COMPLETED", some url⟩, ⟨3, 0⟩) := rfl
    have hdl : download_result (c3_env url content) ⟨3, 0⟩ = (.ok content, ⟨4, 1⟩) := by
      have hu : ¬ url_falsy (some url) = true := by
        simp only [url_falsy, beq_iff_eq]
        exact hurl
      show (if url_falsy (some url) = true then
              ((Except.error "No output_file_url available in completed document" :
                  Except String String), (⟨4, 0⟩ : NetState))
            else
              if is_blank content = true then
                ((Except.error "Downloaded Markdown content is empty" : Except String String),
                  (⟨4, 1⟩ : NetState))
              else (Except.ok content, (⟨4, 1⟩ : NetState))) = (Except.ok content, ⟨4, 1⟩)
      rw [if_neg hu, if_neg (by simp [h])]
    have hdf : download_result_with_fallback (c3_env url content) ⟨3, 0⟩ =
        (.ok content, ⟨4, 1⟩) := by
      unfold download_result_with_fallback
      rw [hdl]
    show poll_go (c3_env url content) "doc-1" 1800 10 (4 + 1) ⟨⟨0, 0⟩, 0, 0⟩ =
      .ok content ⟨⟨4, 1⟩, 20, 2⟩
    rw [poll_go_sleep_step (c3_env url content) "doc-1" 1800 10 4 ⟨⟨0, 0⟩, 0, 0⟩
      ⟨"PENDING", none⟩ ⟨1, 0⟩ (by decide) e1 (by decide) (by decide) (by decide)]
    show poll_go (c3_env url content) "doc-1" 1800 10 (3 + 1) ⟨⟨1, 0⟩, 10, 1⟩ =
      .ok content ⟨⟨4, 1⟩, 20, 2⟩
    rw [poll_go_sleep_step (c3_env url content) "doc-1" 1800 10 3 ⟨⟨1, 0⟩, 10, 1⟩
      ⟨"PENDING", none⟩ ⟨2, 0⟩ (by decide) e2 (by decide) (by decide) (by decide)]
    show poll_go (c3_env url content) "doc-1" 1800 10 (2 + 1) ⟨⟨2, 0⟩, 20, 2⟩ =
      .ok content ⟨⟨4, 1⟩, 20, 2⟩
    rw [poll_go_completed_step (c3_env url content) "doc-1" 1800 10 2 ⟨⟨2, 0⟩, 20, 2⟩
      ⟨"COMPLETED", some url⟩ ⟨3, 0⟩ content ⟨4, 1⟩ (by decide) e3 rfl hdf]
  · decide

theorem poll_pending_pending_completed_witness :
    poll_until_complete (c3_env "https://s3/out.md" "# table") "doc-1" 1800 10 5 =
      .ok "# table" ⟨⟨4, 1⟩, 20, 2⟩ ∧
    poll_until_complete c3_fail_env "doc-1" 1800 10 5 =
      .err "Doctly document Document processing failed" ⟨⟨1, 0⟩, 0, 0⟩ :=
  poll_pending_pending_completed "https://s3/out.md" "# table" (by decide) (by decide)

theorem poll_go_times_out_aux (env : DoctlyEnv) (doc_id : String) (mw pi : Nat)
    (henv : all_nonterminal env) (hpi : 0 < pi) :
    ∀ fuel st, mw - st.elapsed < fuel → st.elapsed < mw + pi →
      ∃ st2, poll_go env doc_id mw pi fuel st = .err (timeout_msg doc_id st2.elapsed) st2 ∧
        mw ≤ st2.elapsed ∧ st2.elapsed < mw + pi := by
  intro fuel
  induction fuel with
  | zero => intro st h1 h2; omega
  | succ fuel ih =>
      intro st h1 h2
      by_cases hlt : st.elapsed < mw
      · obtain ⟨info, hq, hterm⟩ := henv st.net.status_calls
        have hqs : get_document_status env st.net =
            (.ok info, ⟨st.net.status_calls + 1, st.net.get_calls⟩) := by
          unfold get_document_status
          rw [hq]
        obtain ⟨hn1, hn2, hn3⟩ := terminal_status_false_ne _ hterm
        rw [poll_go_sleep_step env doc_id mw pi fuel st info
          ⟨st.net.status_calls + 1, st.net.get_calls⟩ hlt hqs hn1 hn2 hn3]
        apply ih
        · dsimp only [sleep_step]
          omega
        · dsimp only [sleep_step]
          omega
      · refine ⟨st, poll_go_timeout_step env doc_id mw pi fuel st hlt, by omega, h2⟩

/-- Claim C4: when the reported status never reaches a terminal state, the
poll loop terminates by raising the timeout error, and it does so exactly
when the elapsed time reaches max_wait_time: at the raise the elapsed
time is at least max_wait_time, and (having been checked every poll
interval) less than max_wait_time plus one interval — never before the
maximum wait has elapsed. -/
theorem poll_never_terminal_times_out (env : DoctlyEnv) (doc_id : String)
    (mw pi fuel : Nat) (henv : all_nonterminal env) (hpi : 0 < pi) (hfuel : mw < fuel) :
    ∃ st : PollState,
      poll_until_complete env doc_id mw pi fuel = .err (timeout_msg doc_id st.elapsed) st ∧
      mw ≤ st.elapsed ∧ st.elapsed < mw + pi := by
  have h := poll_go_times_out_aux env doc_id mw pi henv hpi fuel
    ⟨⟨0, 0⟩, 0, 0⟩ (by show mw - 0 < fuel; omega) (by show (0 : Nat) < mw + pi; omega)
  exact h

theorem poll_never_terminal_times_out_witness :
    ∃ st : PollState,
      poll_until_complete c4_env "doc-1" 25 10 26 = .err (timeout_msg "doc-1" st.elapsed) st ∧
      25 ≤ st.elapsed ∧ st.elapsed < 25 + 10 :=
  poll_never_terminal_times_out c4_env "doc-1" 25 10 26
    (fun _ => ⟨⟨"PENDING", none⟩, rfl, by decide⟩) (by decide) (by decide)

/-- Claim C5: when the download step fails, the pipeline makes no upload
call, and the single error webhook goes to the unmodified webhook URL (no
document_id query parameter) carrying the download failure message and a
null document_id field (no remote identifier). -/
theorem download_failure_skips_upload (env : WorkerEnv)
    (s3_bucket s3_key webhook_url : String) (fs0 : FsState) (msg : String)
    (h : env.download_outcome = .error msg) :
    (process_job env s3_bucket s3_key webhook_url fs0).uploads = [] ∧
    (process_job env s3_bucket s3_key webhook_url fs0).webhooks =
      [(webhook_url, error_payload msg (basename s3_key) none)] := by
  unfold process_job process_job_try
  rw [h]
  exact ⟨rfl, rfl⟩

theorem download_failure_skips_upload_witness :
    (process_job c5_env "b" "doc.pdf" "http://cb" fs_init).uploads = [] ∧
    (process_job c5_env "b" "doc.pdf" "http://cb" fs_init).webhooks =
      [("http://cb",
        error_payload "File not found in S3: s3://b/doc.pdf" (basename "doc.pdf") none)] :=
  download_failure_skips_upload c5_env "b" "doc.pdf" "http://cb" fs_init
    "File not found in S3: s3://b/doc.pdf" rfl

/-- Claim C6 (counterexample): in the end-to-end success scenario the
webhook body contains no "result_url" key at all; the result location is
carried under the key "csv_url". -/
theorem success_webhook_no_result_url_counterexample :
    (process_job c6_env "b" "doc.pdf" "http://cb" fs_init).webhooks.map
        (fun w => (w.2.lookup "result_url", w.2.lookup "csv_url")) =
      [(none, some (some (s3_public_url "us-east-1" "b" "processed/doc.csv")))] := by
  decide

/-- Claim C6 (amended): for the job with key "doc.pdf" completed by the
gateway with document id "d1", the worker uploads under the derived key
"processed/doc.csv", and the single success webhook goes to the callback
URL with document_id appended as a query parameter, its body being
status "success", csv_url (the uploaded object URL), original_filename
"doc.pdf" and document_id "d1". -/
theorem success_webhook_shape :
    (process_job c6_env "b" "doc.pdf" "http://cb" fs_init).uploads =
      [("tmp1.csv", "b", "processed/doc.csv")] ∧
    (process_job c6_env "b" "doc.pdf" "http://cb" fs_init).webhooks =
      [("http://cb?document_id=d1",
        success_payload (s3_public_url "us-east-1" "b" "processed/doc.csv") "doc.pdf" "d1")] := by
  decide

theorem path_exists_iff (p : String) (fs : FsState) :
    path_exists p fs = true ↔ p ∈ fs.files := by
  simp [path_exists]

theorem path_exists_false (p : String) (fs : FsState) (h : p ∉ fs.files) :
    path_exists p fs = false := by
  cases hpe : path_exists p fs with
  | false => rfl
  | true => exact absurd ((path_exists_iff p fs).mp hpe) h

theorem unlink_removes (p : String) (fs : FsState) : p ∉ (unlink p fs).files := by
  simp [unlink, List.mem_filter]

theorem cleanup_step_subset (q : String) (fs : FsState) :
    (if path_exists q fs then unlink q fs else fs).files ⊆ fs.files := by
  by_cases h : path_exists q fs = true
  · rw [if_pos h]
    intro x hx
    exact (List.mem_filter.mp hx).1
  · rw [if_neg h]
    exact fun x hx => hx

theorem cleanup_preserves_absent :
    ∀ (temps : List String) (fs : FsState) (p : String),
      p ∉ fs.files → p ∉ (cleanup_temp_files temps fs).files := by
  intro temps
  induction temps with
  | nil => intro fs p h; exact h
  | cons q temps ih =>
      intro fs p h
      show p ∉ (cleanup_temp_files temps (if path_exists q fs then unlink q fs else fs)).files
      apply ih
      intro hmem
      exact h (cleanup_step_subset q fs hmem)

theorem cleanup_removes :
    ∀ (temps : List String) (fs : FsState) (p : String),
      p ∈ temps → p ∉ (cleanup_temp_files temps fs).files := by
  intro temps
  induction temps with
  | nil => intro fs p h; cases h
  | cons q temps ih =>
      intro fs p h
      show p ∉ (cleanup_temp_files temps (if path_exists q fs then unlink q fs else fs)).files
      rcases List.mem_cons.mp h with rfl | hmem
      · apply cleanup_preserves_absent
        by_cases hq : path_exists p fs = true
        · rw [if_pos hq]
          exact unlink_removes p fs
        · rw [if_neg hq]
          intro hmem2
          exact hq ((path_exists_iff p fs).mpr hmem2)
      · exact ih _ p hmem

theorem all_cleaned (temps : List String) (fs : FsState) :
    temps.all (fun f => !path_exists f (cleanup_temp_files temps fs)) = true := by
  rw [List.all_eq_true]
  intro f hf
  rw [Bool.not_eq_true']
  exact path_exists_false f _ (cleanup_removes temps fs f hf)

/-- Claim C8: for every environment, job and starting filesystem, every
temporary file created during process_job is absent from the filesystem
by the time it returns, on every exit path (success, failure at any
pipeline step, or webhook-delivery failure). -/
theorem temp_files_cleaned (env : WorkerEnv) (s3_bucket s3_key webhook_url : String)
    (fs0 : FsState) :
    ((process_job env s3_bucket s3_key webhook_url fs0).temp_files).all
      (fun f => !path_exists f (process_job env s3_bucket s3_key webhook_url fs0).fs) = true := by
  exact all_cleaned _ _

/-- Claim C9: the webhook notifier makes exactly one POST attempt, with
the bounded timeout of 30 seconds, and never raises to its caller, for
every outcome of the POST (success, HTTP error status, timeout or
connection failure). -/
theorem send_webhook_never_raises (post : PostOutcome) :
    (send_webhook post).attempts = 1 ∧ (send_webhook post).timeout_seconds = 30 ∧
    (send_webhook post).raised = none := by
  cases post with
  | response code =>
      unfold send_webhook raise_for_status
      dsimp only
      by_cases h : 400 ≤ code
      · rw [if_pos h]
        exact ⟨rfl, rfl, rfl⟩
      · rw [if_neg h]
        exact ⟨rfl, rfl, rfl⟩
  | network_error m => exact ⟨rfl, rfl, rfl⟩

end PdfPipeline
